import Mathlib

/-!
Verification development for the Wordle WhatsApp League scorer (src/app.py).

The pipeline is shallowly embedded: regular-expression based extraction is
modelled by deterministic character-list parsers (each bounded digit group in
the source regexes is followed by a non-digit literal, so greedy maximal-munch
matching coincides with the backtracking regex semantics), Python dicts by
association lists queried through a lookup function, Python floats by rationals
(all scores are integers or halves, hence exact), and Python dates/datetimes by
explicit calendar records or integer day counts where the source only does
day arithmetic.
-/

namespace WordleApp

/-- Word characters of the regex class used for the boundary in WORDLE_PAT
(ASCII portion of Python's word-character class). -/
def wordChar (c : Char) : Bool := c.isAlphanum || c == '_'

/-- Lowercasing of a string, modelling Python str.lower on the ASCII range. -/
def pyLower (s : String) : String := String.mk (s.data.map Char.toLower)

/-- Uppercasing of a string, modelling Python str.upper on the ASCII range. -/
def pyUpper (s : String) : String := String.mk (s.data.map Char.toUpper)

/-- Whitespace trimming at both ends, modelling Python str.strip. -/
def stripChars (cs : List Char) : List Char :=
  ((cs.dropWhile Char.isWhitespace).reverse.dropWhile Char.isWhitespace).reverse

/-- Python str.strip lifted to String. -/
def pyStrip (s : String) : String := String.mk (stripChars s.data)

/-- Numeric value of a digit run, modelling Python int() on a digit string. -/
def natOfDigits (cs : List Char) : Nat :=
  cs.foldl (fun n c => 10 * n + (c.toNat - 48)) 0

/-- Numeric value of a digit string. -/
def strToNat (s : String) : Nat := natOfDigits s.data

/-- safe_name from app.py line 57: trims surrounding whitespace only,
so player identity stays case-sensitive. -/
def safe_name (s : String) : String := pyStrip s

/-- Consume the pattern (given lowercase) case-insensitively from the front of
a character list, returning the remainder on success. -/
def stripCI : List Char → List Char → Option (List Char)
  | [], cs => some cs
  | _ :: _, [] => none
  | p :: ps, c :: cs => if c.toLower == p then stripCI ps cs else none

/-- Attempt the WORDLE_PAT match at the current position (app.py line 10):
the word Wordle case-insensitively, whitespace, a digit run (the regex is
a plain digit-plus with no comma), whitespace, then a result token 1-6/6 or
X/6 case-insensitively.  Greedy runs are faithful because digits, whitespace
and the result head are pairwise disjoint character classes. -/
def wordleAt (cs : List Char) : Option (Int × String) :=
  match stripCI ['w', 'o', 'r', 'd', 'l', 'e'] cs with
  | none => none
  | some r1 =>
    let sp := r1.takeWhile Char.isWhitespace
    let r2 := r1.dropWhile Char.isWhitespace
    if sp.isEmpty then none else
    let ds := r2.takeWhile Char.isDigit
    let r3 := r2.dropWhile Char.isDigit
    if ds.isEmpty then none else
    let sp2 := r3.takeWhile Char.isWhitespace
    let r4 := r3.dropWhile Char.isWhitespace
    if sp2.isEmpty then none else
    match r4 with
    | c :: '/' :: '6' :: _ =>
      if ('1' ≤ c && c ≤ '6') || c == 'X' || c == 'x'
      then some ((natOfDigits ds : Int), String.mk [c, '/', '6'])
      else none
    | _ => none

/-- Scan for the leftmost WORDLE_PAT match, tracking whether the previous
character was a word character (the pattern starts with a word boundary and
the letter W, so a match can only begin after a non-word character or at the
start of the string). -/
def wordleSearchAux : Bool → List Char → Option (Int × String)
  | _, [] => none
  | prevW, c :: rest =>
    if prevW then wordleSearchAux (wordChar c) rest
    else
      match wordleAt (c :: rest) with
      | some r => some r
      | none => wordleSearchAux (wordChar c) rest

/-- re.search of WORDLE_PAT over a message body (app.py line 160). -/
def wordleSearch (s : String) : Option (Int × String) :=
  wordleSearchAux false s.data

/-- score_from_result from app.py lines 42-50: X/6 scores one half,
g/6 scores 7 - g, anything else scores 0.  The source uppercases the
argument and matches only a prefix, which the patterns below mirror. -/
def score_from_result (result : String) : ℚ :=
  match result.data.map Char.toUpper with
  | 'X' :: '/' :: _ => mkRat 1 2
  | c :: '/' :: '6' :: _ =>
    if '1' ≤ c ∧ c ≤ '6' then ((7 - (c.toNat - 48 : Int) : Int) : ℚ) else 0
  | _ => 0

/-- Field order of a date template: day/month or month/day. -/
inductive FieldOrder
  | dmy
  | mdy
deriving DecidableEq

/-- Date template, determined by the field order and whether the year is the
4-digit form (true) or the 2-digit form (false). -/
structure DateFmt where
  ord : FieldOrder
  y4 : Bool
deriving DecidableEq

/-- Template for a percent-d slash percent-m slash percent-Y date. -/
def dmY : DateFmt := ⟨FieldOrder.dmy, true⟩

/-- Template for a percent-d slash percent-m slash percent-y date. -/
def dmy2 : DateFmt := ⟨FieldOrder.dmy, false⟩

/-- Template for a percent-m slash percent-d slash percent-Y date. -/
def mdY : DateFmt := ⟨FieldOrder.mdy, true⟩

/-- Template for a percent-m slash percent-d slash percent-y date. -/
def mdy2 : DateFmt := ⟨FieldOrder.mdy, false⟩

/-- The ordered template lists of parse_dt, app.py lines 23-27. -/
def fmts (prefer_dmy : Bool) : List DateFmt :=
  if prefer_dmy then [dmY, dmy2, mdY, mdy2] else [mdY, mdy2, dmY, dmy2]

/-- Split a character list on a separator character: the list of fields
between occurrences of the separator (Python str.split semantics). -/
def splitOnChar (sep : Char) : List Char → List (List Char)
  | [] => [[]]
  | c :: rest =>
    match splitOnChar sep rest with
    | h :: t => if c == sep then [] :: h :: t else (c :: h) :: t
    | [] => [[c]]

/-- Day field of strptime: one or two digits with value 1 to 31
(the strptime field regex, followed by the slash, admits exactly these). -/
def pDay (s : String) : Option Nat :=
  if s.data.all Char.isDigit ∧ 1 ≤ s.length ∧ s.length ≤ 2 ∧
      1 ≤ strToNat s ∧ strToNat s ≤ 31
  then some (strToNat s) else none

/-- Month field of strptime: one or two digits with value 1 to 12. -/
def pMonth (s : String) : Option Nat :=
  if s.data.all Char.isDigit ∧ 1 ≤ s.length ∧ s.length ≤ 2 ∧
      1 ≤ strToNat s ∧ strToNat s ≤ 12
  then some (strToNat s) else none

/-- Century mapping of the 2-digit year field: 0-68 maps into the 2000s,
69-99 into the 1900s (the CPython strptime convention). -/
def y2map (v : Nat) : Nat := if v ≤ 68 then 2000 + v else 1900 + v

/-- Year field of strptime: exactly four digits for the 4-digit template,
exactly two digits (then century-mapped) for the 2-digit template. -/
def pYear (y4 : Bool) (s : String) : Option Nat :=
  if s.data.all Char.isDigit ∧ s.length = (if y4 then 4 else 2)
  then some (if y4 then strToNat s else y2map (strToNat s)) else none

/-- Leap-year test of the Gregorian calendar, as used by Python's date. -/
def isLeap (y : Nat) : Bool := (y % 4 == 0 && y % 100 != 0) || y % 400 == 0

/-- Number of days of a month, as validated by Python's date constructor. -/
def daysInMonth (y m : Nat) : Nat :=
  if m = 2 then (if isLeap y then 29 else 28)
  else if m = 4 ∨ m = 6 ∨ m = 9 ∨ m = 11 then 30 else 31

/-- Calendar date as produced by strptime. -/
structure Ymd where
  y : Nat
  m : Nat
  d : Nat
deriving DecidableEq

/-- Attempt one date template on the already-split slash-separated fields:
exactly three all-digit fields of the template's widths, forming a valid
calendar date (the date constructor enforces calendar validity and a
positive year). -/
def tryFormatParts (f : DateFmt) : List String → Option Ymd
  | [a, b, c] =>
    match pDay (match f.ord with | FieldOrder.dmy => a | FieldOrder.mdy => b),
          pMonth (match f.ord with | FieldOrder.dmy => b | FieldOrder.mdy => a),
          pYear f.y4 c with
    | some dv, some mv, some yv =>
      if 1 ≤ yv ∧ dv ≤ daysInMonth yv mv then some ⟨yv, mv, dv⟩ else none
    | _, _, _ => none
  | _ => none

/-- Attempt one date template on the whole date string (strptime requires the
template to consume the entire string). -/
def tryFormat (f : DateFmt) (s : String) : Option Ymd :=
  tryFormatParts f ((splitOnChar '/' s.data).map String.mk)

/-- First template of the list that parses the date string, app.py lines 29-35. -/
def firstParse : List DateFmt → String → Option Ymd
  | [], _ => none
  | f :: fs, s =>
    match tryFormat f s with
    | some d => some d
    | none => firstParse fs s

/-- Hour field of strptime: one or two digits with value 0 to 23. -/
def pHour (s : String) : Option Nat :=
  if s.data.all Char.isDigit ∧ 1 ≤ s.length ∧ s.length ≤ 2 ∧ strToNat s ≤ 23
  then some (strToNat s) else none

/-- Minute field of strptime: a single digit, or two digits with value 0 to 59. -/
def pMinute (s : String) : Option Nat :=
  if s.data.all Char.isDigit ∧
      (s.length = 1 ∨ (s.length = 2 ∧ strToNat s ≤ 59))
  then some (strToNat s) else none

/-- Time of day parsed from the time text. -/
structure Hm where
  hh : Nat
  mm : Nat
deriving DecidableEq

/-- strptime of the time text against the hour-colon-minute template only
(app.py line 39): exactly two colon-separated fields, so a time text with a
seconds component is rejected. -/
def parse_time (t : String) : Option Hm :=
  match (splitOnChar ':' t.data).map String.mk with
  | [h, m] =>
    match pHour h, pMinute m with
    | some hv, some mv => some ⟨hv, mv⟩
    | _, _ => none
  | _ => none

/-- Combined datetime as built by parse_dt (seconds are always zero here,
since only the hour-minute template exists). -/
structure Timestamp where
  date : Ymd
  time : Hm
deriving DecidableEq

/-- Python datetime comparison: lexicographic on the calendar and clock
fields. -/
def Timestamp.lt (a b : Timestamp) : Prop :=
  a.date.y < b.date.y ∨ (a.date.y = b.date.y ∧
    (a.date.m < b.date.m ∨ (a.date.m = b.date.m ∧
      (a.date.d < b.date.d ∨ (a.date.d = b.date.d ∧
        (a.time.hh < b.time.hh ∨ (a.time.hh = b.time.hh ∧
          a.time.mm < b.time.mm)))))))

instance instDecidableTimestampLt (a b : Timestamp) : Decidable (a.lt b) := by
  unfold Timestamp.lt
  infer_instance

/-- parse_dt from app.py lines 21-40: try the ordered date templates, raising
a ValueError naming the date string when none parses; then parse the time
text with the hour-minute template (whose failure also raises, and is caught
by the same caller). -/
def parse_dt (d_str t_str : String) (prefer_dmy : Bool) : Except String Timestamp :=
  match firstParse (fmts prefer_dmy) d_str with
  | none => Except.error ("Could not parse date: " ++ d_str)
  | some d =>
    match parse_time t_str with
    | none => Except.error ("Could not parse time: " ++ t_str)
    | some tm => Except.ok ⟨d, tm⟩

/-- Fields captured by a LINE_PATS match (app.py lines 12-19): date text,
time text, sender name and message body. -/
structure RawMsg where
  d : String
  t : String
  name : String
  msg : String
deriving DecidableEq

/-- Take a maximal digit run whose length lies in the given bounds, returning
the run and the remainder.  Each bounded digit group of LINE_PATS is followed
by a non-digit literal, so the backtracking regex accepts exactly the maximal
run with a length in bounds. -/
def digitRun (lo hi : Nat) (cs : List Char) : Option (List Char × List Char) :=
  let ds := cs.takeWhile Char.isDigit
  if lo ≤ ds.length ∧ ds.length ≤ hi then some (ds, cs.dropWhile Char.isDigit)
  else none

/-- Consume an exact literal character sequence. -/
def expectChars : List Char → List Char → Option (List Char)
  | [], cs => some cs
  | _ :: _, [] => none
  | p :: ps, c :: cs => if c == p then expectChars ps cs else none

/-- Split at the first colon-space occurrence: the lazy name group of
LINE_PATS followed by the literal colon-space, with the message body being
the rest of the line. -/
def splitColonSpace : List Char → Option (List Char × List Char)
  | [] => none
  | ':' :: ' ' :: rest => some ([], rest)
  | c :: rest =>
    match splitColonSpace rest with
    | some (nm, ms) => some (c :: nm, ms)
    | none => none

/-- Date group of LINE_PATS: one-to-two digits, slash, one-to-two digits,
slash, two-to-four digits.  Returns the matched text and the remainder. -/
def matchDate (cs : List Char) : Option (List Char × List Char) :=
  (digitRun 1 2 cs).bind fun p1 =>
  (expectChars ['/'] p1.2).bind fun r2 =>
  (digitRun 1 2 r2).bind fun p2 =>
  (expectChars ['/'] p2.2).bind fun r4 =>
  (digitRun 2 4 r4).bind fun p3 =>
  some (p1.1 ++ '/' :: p2.1 ++ '/' :: p3.1, p3.2)

/-- Time group of LINE_PATS: one-to-two digits, colon, exactly two digits.
There is no seconds subgroup in either pattern. -/
def matchTime (cs : List Char) : Option (List Char × List Char) :=
  (digitRun 1 2 cs).bind fun p1 =>
  (expectChars [':'] p1.2).bind fun r2 =>
  (digitRun 2 2 r2).bind fun p2 =>
  some (p1.1 ++ ':' :: p2.1, p2.2)

/-- First LINE_PATS shape: date, comma-space, time, space-dash-space, name,
colon-space, message, anchored to the whole line. -/
def matchPat1 (cs : List Char) : Option RawMsg :=
  (matchDate cs).bind fun pd =>
  (expectChars [',', ' '] pd.2).bind fun r1 =>
  (matchTime r1).bind fun pt =>
  (expectChars [' ', '-', ' '] pt.2).bind fun r2 =>
  (splitColonSpace r2).bind fun pn =>
  some ⟨String.mk pd.1, String.mk pt.1, String.mk pn.1, String.mk pn.2⟩

/-- Second LINE_PATS shape: bracketed date-time, then name, colon-space,
message. -/
def matchPat2 (cs : List Char) : Option RawMsg :=
  (expectChars ['['] cs).bind fun r0 =>
  (matchDate r0).bind fun pd =>
  (expectChars [',', ' '] pd.2).bind fun r1 =>
  (matchTime r1).bind fun pt =>
  (expectChars [']', ' '] pt.2).bind fun r2 =>
  (splitColonSpace r2).bind fun pn =>
  some ⟨String.mk pd.1, String.mk pt.1, String.mk pn.1, String.mk pn.2⟩

/-- Try the LINE_PATS shapes in order (app.py lines 145-151). -/
def extractMessage (line : String) : Option RawMsg :=
  match matchPat1 line.data with
  | some m => some m
  | none => matchPat2 line.data

/-- Ledger key: exact (case-sensitive) player name and puzzle number. -/
abbrev LKey := String × Int

/-- Ledger entry: timestamp and uppercased result token. -/
structure Entry where
  ts : Timestamp
  result : String
deriving DecidableEq

/-- The first_sub dict (app.py line 141), modelled as an association list in
which the most recent write for a key shadows older ones. -/
abbrev Ledger := List (LKey × Entry)

/-- Dict lookup: the most recently written entry for the key, if any. -/
def Ledger.get : Ledger → LKey → Option Entry
  | [], _ => none
  | (k, e) :: rest, k0 => if k = k0 then some e else Ledger.get rest k0

/-- The first-submission write of app.py lines 170-172: insert when the key
is absent, overwrite only when the incoming timestamp is strictly earlier
than the stored one, otherwise leave the ledger unchanged. -/
def Ledger.record (l : Ledger) (k : LKey) (e : Entry) : Ledger :=
  match l.get k with
  | none => (k, e) :: l
  | some e0 => if e.ts.lt e0.ts then (k, e) :: l else l

/-- Set insertion for the all_players set (membership is all that the
scorer observes about it). -/
def addPlayer (ps : List String) (n : String) : List String :=
  if n ∈ ps then ps else ps ++ [n]

/-- Mutable state of the main parsing loop. -/
structure PState where
  first_sub : Ledger
  all_players : List String
deriving DecidableEq

/-- State at the start of the parsing loop. -/
def initState : PState := ⟨[], []⟩

/-- One iteration of the main parsing loop (app.py lines 144-172): match a
line shape, parse the timestamp (a failure skips the line), search the
stripped body for a result token, then record the event under the trimmed
sender name and puzzle number. -/
def processLine (prefer_dmy : Bool) (s : PState) (line : String) : PState :=
  match extractMessage line with
  | none => s
  | some rm =>
    match parse_dt rm.d rm.t prefer_dmy with
    | Except.error _ => s
    | Except.ok dt =>
      match wordleSearch (pyStrip rm.msg) with
      | none => s
      | some pr =>
        ⟨s.first_sub.record (safe_name rm.name, pr.1) ⟨dt, pyUpper pr.2⟩,
         addPlayer s.all_players (safe_name rm.name)⟩

/-- The whole parsing loop over the log lines. -/
def runPipeline (prefer_dmy : Bool) (lines : List String) : PState :=
  lines.foldl (processLine prefer_dmy) initState

/-- Season configuration, with dates modelled as integer day numbers (the
source only ever adds day counts to dates and subtracts dates). -/
structure SeasonCfg where
  seasonStartDate : Int
  seasonStartPuzzle : Int
  seasonWeeks : Nat
  reportWeek : Nat
  doubleDates : List Int
deriving DecidableEq

/-- puzzle_for_day from app.py lines 83-84. -/
def puzzle_for_day (season_start_date season_start_puzzle d : Int) : Int :=
  season_start_puzzle + (d - season_start_date)

/-- day_for_puzzle from app.py lines 86-87. -/
def day_for_puzzle (season_start_date season_start_puzzle puzzle : Int) : Int :=
  season_start_date + (puzzle - season_start_puzzle)

/-- season_dates from app.py lines 177-178: every day of the configured
season, i.e. seasonWeeks times seven days from the season start. -/
def season_dates (c : SeasonCfg) : List Int :=
  (List.range (c.seasonWeeks * 7)).map (fun i => c.seasonStartDate + (i : Int))

/-- season_puzzles from app.py line 179. -/
def season_puzzles (c : SeasonCfg) : List Int :=
  (season_dates c).map (puzzle_for_day c.seasonStartDate c.seasonStartPuzzle)

/-- multiplier_for_puzzle from app.py lines 185-187: double when the puzzle's
date is a configured double date. -/
def multiplier_for_puzzle (c : SeasonCfg) (puz : Int) : ℚ :=
  if day_for_puzzle c.seasonStartDate c.seasonStartPuzzle puz ∈ c.doubleDates
  then 2 else 1

/-- Season total of one player (app.py lines 194-199): over every season
puzzle, the stored result's score times the day multiplier, else zero. -/
def season_points (c : SeasonCfg) (led : Ledger) (pl : String) : ℚ :=
  ((season_puzzles c).map (fun puz =>
    match led.get (pl, puz) with
    | some e => score_from_result e.result * multiplier_for_puzzle c puz
    | none => 0)).sum

/-- Season date range as the specification describes it: weeks 1 through
reportWeek only, i.e. reportWeek times seven days from the season start.
This is the comparison point for the season-range claim; the source's
season_dates above ranges over seasonWeeks weeks instead. -/
def season_dates_claimed (c : SeasonCfg) : List Int :=
  (List.range (c.reportWeek * 7)).map (fun i => c.seasonStartDate + (i : Int))

/-- Season total restricted to the specification's claimed date range. -/
def season_points_claimed (c : SeasonCfg) (led : Ledger) (pl : String) : ℚ :=
  (((season_dates_claimed c).map
      (puzzle_for_day c.seasonStartDate c.seasonStartPuzzle)).map (fun puz =>
    match led.get (pl, puz) with
    | some e => score_from_result e.result * multiplier_for_puzzle c puz
    | none => 0)).sum

/-- Ranking key of app.py lines 210-211: negated points paired with the
lowercased player name. -/
def rankKey (pts : ℚ) (pl : String) : ℚ × String := (-pts, pyLower pl)

/-- Python tuple comparison on the ranking key: lexicographic. -/
def keyLT (k1 k2 : ℚ × String) : Prop :=
  k1.1 < k2.1 ∨ (k1.1 = k2.1 ∧ k1.2 < k2.2)

/-- One player sorts strictly before another in the ranked output. -/
def ranksBefore (p1 : ℚ) (n1 : String) (p2 : ℚ) (n2 : String) : Prop :=
  keyLT (rankKey p1 n1) (rankKey p2 n2)

/-- Sample entry for ledger theorems: an 08:15 submission. -/
def entryEarly : Entry := ⟨⟨⟨2026, 1, 12⟩, ⟨8, 15⟩⟩, "3/6"⟩

/-- Sample entry for ledger theorems: an 09:00 submission. -/
def entryLate : Entry := ⟨⟨⟨2026, 1, 12⟩, ⟨9, 0⟩⟩, "2/6"⟩

/-- Sample entry for ledger theorems: a different result also at 08:15. -/
def entryTied : Entry := ⟨⟨⟨2026, 1, 12⟩, ⟨8, 15⟩⟩, "2/6"⟩

/-- Season configuration exhibiting the season-range divergence: a two-week
season whose report week is week 1. -/
def cfgC1 : SeasonCfg := ⟨0, 100, 2, 1, []⟩

/-- Midnight timestamp for sample ledgers. -/
def tsZero : Timestamp := ⟨⟨2026, 1, 1⟩, ⟨0, 0⟩⟩

/-- Sample ledger holding one submission for puzzle 107, a puzzle of week 2
under cfgC1. -/
def ledC1 : Ledger := [(("Alice", 107), ⟨tsZero, "1/6"⟩)]

/-- One-week season anchored at puzzle 100, for the player-identity claim. -/
def cfgC10 : SeasonCfg := ⟨0, 100, 1, 1, []⟩

/-- Two-line log whose senders differ only in letter case (the first with
surrounding whitespace around the name, which the pipeline trims). -/
def linesC10 : List String :=
  ["12/01/2026, 08:15 -  Alice : Wordle 100 3/6",
   "12/01/2026, 08:20 - ALICE: Wordle 100 1/6"]

end WordleApp

namespace WordleApp

theorem ts_lt_asymm (a b : Timestamp) (h : Timestamp.lt a b) :
    ¬ Timestamp.lt b a := by
  unfold Timestamp.lt at *
  omega

theorem ts_lt_irrefl (a : Timestamp) : ¬ Timestamp.lt a a := by
  unfold Timestamp.lt
  omega

theorem ledger_get_cons_self (l : Ledger) (k : LKey) (e : Entry) :
    Ledger.get ((k, e) :: l) k = some e := by
  simp [Ledger.get]

theorem ledger_record_absent (l : Ledger) (k : LKey) (e : Entry)
    (h0 : l.get k = none) : l.record k e = (k, e) :: l := by
  unfold Ledger.record
  rw [h0]

theorem ledger_record_present (l : Ledger) (k : LKey) (e0 e : Entry)
    (h0 : l.get k = some e0) :
    l.record k e = if e.ts.lt e0.ts then (k, e) :: l else l := by
  unfold Ledger.record
  rw [h0]

/-- C4: ledger deduplication is first-submission-wins and order-independent:
with no prior entry for the key, inserting a strictly earlier event e1 and a
later event e2 in either order leaves e1 stored, and in general a stored
entry is replaced exactly when the incoming event's timestamp is strictly
earlier than the stored one. -/
theorem c4_first_submission_wins (l : Ledger) (k : LKey) (e1 e2 : Entry)
    (h0 : l.get k = none) (hlt : e1.ts.lt e2.ts) :
    ((l.record k e1).record k e2).get k = some e1 ∧
    ((l.record k e2).record k e1).get k = some e1 ∧
    (∀ (l2 : Ledger) (e0 e : Entry), l2.get k = some e0 →
      (l2.record k e).get k = if e.ts.lt e0.ts then some e else some e0) := by
  have hrep : ∀ (l2 : Ledger) (e0 e : Entry), l2.get k = some e0 →
      (l2.record k e).get k = if e.ts.lt e0.ts then some e else some e0 := by
    intro l2 e0 e hget
    rw [ledger_record_present l2 k e0 e hget]
    by_cases hc : Timestamp.lt e.ts e0.ts
    · rw [if_pos hc, if_pos hc, ledger_get_cons_self]
    · rw [if_neg hc, if_neg hc, hget]
  refine ⟨?_, ?_, hrep⟩
  · rw [ledger_record_absent l k e1 h0,
      hrep ((k, e1) :: l) e1 e2 (ledger_get_cons_self l k e1),
      if_neg (ts_lt_asymm e1.ts e2.ts hlt)]
  · rw [ledger_record_absent l k e2 h0,
      hrep ((k, e2) :: l) e2 e1 (ledger_get_cons_self l k e2),
      if_pos hlt]

theorem c4_witness :
    Ledger.get (Ledger.record (Ledger.record [] ("Alice", 100) entryEarly)
      ("Alice", 100) entryLate) ("Alice", 100) = some entryEarly ∧
    Ledger.get (Ledger.record (Ledger.record [] ("Alice", 100) entryLate)
      ("Alice", 100) entryEarly) ("Alice", 100) = some entryEarly := by
  have h := c4_first_submission_wins [] ("Alice", 100) entryEarly entryLate
    rfl (by decide)
  exact ⟨h.1, h.2.1⟩

/-- C9: with equal timestamps the event processed first is kept: an incoming
event whose timestamp equals the stored one never replaces the stored
entry. -/
theorem c9_equal_timestamps_keep_first (l : Ledger) (k : LKey) (e1 e2 : Entry)
    (h0 : l.get k = none) (heq : e1.ts = e2.ts) :
    ((l.record k e1).record k e2).get k = some e1 ∧
    (∀ (l2 : Ledger) (e0 e : Entry), l2.get k = some e0 → e.ts = e0.ts →
      l2.record k e = l2) := by
  have hkeep : ∀ (l2 : Ledger) (e0 e : Entry), l2.get k = some e0 → e.ts = e0.ts →
      l2.record k e = l2 := by
    intro l2 e0 e hget hts
    rw [ledger_record_present l2 k e0 e hget, if_neg]
    rw [hts]
    exact ts_lt_irrefl e0.ts
  refine ⟨?_, hkeep⟩
  rw [ledger_record_absent l k e1 h0,
    hkeep ((k, e1) :: l) e1 e2 (ledger_get_cons_self l k e1) heq.symm,
    ledger_get_cons_self]

theorem c9_witness :
    Ledger.get (Ledger.record (Ledger.record [] ("Alice", 100) entryEarly)
      ("Alice", 100) entryTied) ("Alice", 100) = some entryEarly :=
  (c9_equal_timestamps_keep_first [] ("Alice", 100) entryEarly entryTied
    rfl rfl).1

/-- C5: puzzle_for_day and day_for_puzzle are exact mutual inverses over all
integer dates and puzzle numbers, with no clamping anywhere (in particular
for dates before the anchor and puzzle numbers below the anchor puzzle). -/
theorem c5_mapper_inverse (a p0 d p : Int) :
    day_for_puzzle a p0 (puzzle_for_day a p0 d) = d ∧
    puzzle_for_day a p0 (day_for_puzzle a p0 p) = p := by
  unfold day_for_puzzle puzzle_for_day
  constructor <;> ring

theorem processLine_bad_date (prefer_dmy : Bool) (line : String) (rm : RawMsg)
    (hx : extractMessage line = some rm)
    (hd : firstParse (fmts prefer_dmy) rm.d = none) (s : PState) :
    processLine prefer_dmy s line = s := by
  have hp : parse_dt rm.d rm.t prefer_dmy =
      Except.error ("Could not parse date: " ++ rm.d) := by
    unfold parse_dt
    rw [hd]
  unfold processLine
  simp only [hx, hp]

/-- C8: when a line's date text matches no date template, parse_dt fails with
the explicit could-not-parse-date error, and running the pipeline on any log
containing that line equals running it on the log with only that line
removed: every other line is still processed identically. -/
theorem c8_bad_date_skips_only_that_line (prefer_dmy : Bool)
    (pre post : List String) (line : String) (rm : RawMsg)
    (hx : extractMessage line = some rm)
    (hd : firstParse (fmts prefer_dmy) rm.d = none) :
    parse_dt rm.d rm.t prefer_dmy =
      Except.error ("Could not parse date: " ++ rm.d) ∧
    runPipeline prefer_dmy (pre ++ line :: post) =
      runPipeline prefer_dmy (pre ++ post) := by
  constructor
  · unfold parse_dt
    rw [hd]
  · unfold runPipeline
    rw [List.foldl_append, List.foldl_append, List.foldl_cons,
      processLine_bad_date prefer_dmy line rm hx hd]

theorem c8_witness :
    extractMessage "99/99/2026, 10:00 - Carol: Wordle 100 2/6" =
      some ⟨"99/99/2026", "10:00", "Carol", "Wordle 100 2/6"⟩ ∧
    firstParse (fmts true) "99/99/2026" = none ∧
    parse_dt "99/99/2026" "10:00" true =
      Except.error ("Could not parse date: " ++ "99/99/2026") ∧
    runPipeline true (["12/01/2026, 08:15 - Alice: Wordle 100 3/6"] ++
        "99/99/2026, 10:00 - Carol: Wordle 100 2/6" ::
        ["[13/01/2026, 09:00] Bob: Wordle 101 X/6"]) =
      runPipeline true (["12/01/2026, 08:15 - Alice: Wordle 100 3/6"] ++
        ["[13/01/2026, 09:00] Bob: Wordle 101 X/6"]) := by
  refine ⟨by decide, by decide, ?_⟩
  exact c8_bad_date_skips_only_that_line true
    ["12/01/2026, 08:15 - Alice: Wordle 100 3/6"]
    ["[13/01/2026, 09:00] Bob: Wordle 101 X/6"]
    "99/99/2026, 10:00 - Carol: Wordle 100 2/6"
    ⟨"99/99/2026", "10:00", "Carol", "Wordle 100 2/6"⟩ (by decide) (by decide)

theorem pYear_four_then_not_two (s : String) (h : pYear true s ≠ none) :
    pYear false s = none := by
  have h4 : (if s.data.all Char.isDigit ∧ s.length = 4
      then some (strToNat s) else none) ≠ none := h
  show (if s.data.all Char.isDigit ∧ s.length = 2
      then some (y2map (strToNat s)) else none) = none
  by_cases hc : s.data.all Char.isDigit ∧ s.length = 4
  · rw [if_neg]
    rintro ⟨-, hl2⟩
    rw [hl2] at hc
    exact absurd hc.2 (by omega)
  · rw [if_neg hc] at h4
    exact absurd rfl h4

theorem tryFormatParts_year_none (f : DateFmt) (a b c : String)
    (hy : pYear f.y4 c = none) : tryFormatParts f [a, b, c] = none := by
  cases hd : pDay (match f.ord with | FieldOrder.dmy => a | FieldOrder.mdy => b) <;>
    cases hm : pMonth (match f.ord with | FieldOrder.dmy => b | FieldOrder.mdy => a) <;>
      simp [tryFormatParts, hd, hm, hy]

theorem tryFormat_four_then_not_two (o o2 : FieldOrder) (s : String)
    (h : tryFormat ⟨o, true⟩ s ≠ none) : tryFormat ⟨o2, false⟩ s = none := by
  unfold tryFormat at h ⊢
  cases hps : (splitOnChar '/' s.data).map String.mk with
  | nil => rw [hps] at h; exact absurd rfl h
  | cons a t =>
    cases t with
    | nil => rw [hps] at h; exact absurd rfl h
    | cons b t2 =>
      cases t2 with
      | nil => rw [hps] at h; exact absurd rfl h
      | cons c t3 =>
        cases t3 with
        | cons d4 t4 => rw [hps] at h; exact absurd rfl h
        | nil =>
          rw [hps] at h
          apply tryFormatParts_year_none
          apply pYear_four_then_not_two
          intro hy
          exact h (tryFormatParts_year_none ⟨o, true⟩ a b c hy)

theorem firstParse_swap (A B : DateFmt) (r : List DateFmt) (s : String)
    (hAB : tryFormat A s ≠ none → tryFormat B s = none) :
    firstParse (A :: B :: r) s = firstParse (B :: A :: r) s := by
  cases hA : tryFormat A s with
  | some v =>
    have hB := hAB (by rw [hA]; exact fun hh => Option.noConfusion hh)
    simp [firstParse, hA, hB]
  | none =>
    cases hB : tryFormat B s with
    | some v => simp [firstParse, hA, hB]
    | none => simp [firstParse, hA, hB]

theorem firstParse_cons_congr (f : DateFmt) (r1 r2 : List DateFmt) (s : String)
    (h : firstParse r1 s = firstParse r2 s) :
    firstParse (f :: r1) s = firstParse (f :: r2) s := by
  cases hf : tryFormat f s <;> simp [firstParse, hf, h]

/-- C6 counterexample: the template list tried when not day-first is not the
reverse of the day-first list (the source swaps the day-first and month-first
preference but keeps 4-digit years before 2-digit years). -/
theorem c6_counterexample : fmts false ≠ (fmts true).reverse := by decide

/-- C6 as amended: when day-first the templates are tried in the order
day/month/4-digit-year, day/month/2-digit-year, month/day/4-digit-year,
month/day/2-digit-year; when not day-first the order is month/day/4-digit,
month/day/2-digit, day/month/4-digit, day/month/2-digit — not the literal
reverse, but producing the same parse as the reversed list on every date
string, because 4-digit-year and 2-digit-year templates accept disjoint
strings. -/
theorem c6_template_order (s : String) :
    fmts true = [dmY, dmy2, mdY, mdy2] ∧
    fmts false = [mdY, mdy2, dmY, dmy2] ∧
    firstParse (fmts false) s = firstParse ((fmts true).reverse) s := by
  refine ⟨rfl, rfl, ?_⟩
  have e1 : firstParse [mdY, mdy2, dmY, dmy2] s =
      firstParse [mdy2, mdY, dmY, dmy2] s :=
    firstParse_swap mdY mdy2 [dmY, dmy2] s
      (tryFormat_four_then_not_two FieldOrder.mdy FieldOrder.mdy s)
  have e2 : firstParse [dmY, dmy2] s = firstParse [dmy2, dmY] s :=
    firstParse_swap dmY dmy2 [] s
      (tryFormat_four_then_not_two FieldOrder.dmy FieldOrder.dmy s)
  exact e1.trans (firstParse_cons_congr mdy2 _ _ s
    (firstParse_cons_congr mdY _ _ s e2))

/-- C7: the ranking key comparison is a deterministic total strict order:
keys coincide exactly for equal points and case-insensitively equal names;
strictly more points ranks first; on equal points the case-insensitively
alphabetically earlier name ranks first; and whenever points differ or the
folded names differ, exactly one of the two players ranks before the
other. -/
theorem c7_ranking_total_order (pa pb : ℚ) (na nb : String) :
    (rankKey pa na = rankKey pb nb ↔ pa = pb ∧ pyLower na = pyLower nb) ∧
    (pb < pa → ranksBefore pa na pb nb) ∧
    (pa = pb → pyLower na < pyLower nb → ranksBefore pa na pb nb) ∧
    ((pa ≠ pb ∨ pyLower na ≠ pyLower nb) →
      (ranksBefore pa na pb nb ↔ ¬ ranksBefore pb nb pa na)) := by
  unfold ranksBefore keyLT rankKey
  refine ⟨?_, ?_, ?_, ?_⟩
  · simp [Prod.ext_iff]
  · intro h
    exact Or.inl (by simpa using neg_lt_neg h)
  · intro h1 h2
    exact Or.inr ⟨by rw [h1], h2⟩
  · intro hne
    constructor
    · rintro (h | ⟨heq, hlt⟩)
      · rintro (h2 | ⟨heq2, -⟩)
        · exact absurd h2 (not_lt_of_lt h)
        · exact absurd heq2.symm (ne_of_lt h)
      · rintro (h2 | ⟨-, hlt2⟩)
        · exact absurd heq (ne_of_gt h2)
        · exact absurd hlt2 (not_lt_of_lt hlt)
    · intro hn
      rcases lt_trichotomy (-pa : ℚ) (-pb) with h | h | h
      · exact Or.inl h
      · have hpa : pa = pb := neg_inj.mp h
        rcases lt_trichotomy (pyLower na) (pyLower nb) with h2 | h2 | h2
        · exact Or.inr ⟨h, h2⟩
        · rcases hne with hne1 | hne2
          · exact absurd hpa hne1
          · exact absurd h2 hne2
        · exact absurd (Or.inr ⟨h.symm, h2⟩) hn
      · exact absurd (Or.inl h) hn

/-- C1 (code evaluation at the failing input): under cfgC1 the code's season
range spans all 14 days of the two-week season, not the 7 days of weeks 1
through reportWeek that the specification claims, so the week-2 submission
of ledC1 contributes 6 points to the code's season total while the claimed
range yields 0. -/
theorem c1_season_range_full_season :
    (season_dates cfgC1).length = 14 ∧
    (season_dates_claimed cfgC1).length = 7 ∧
    season_points cfgC1 ledC1 "Alice" = 6 ∧
    season_points_claimed cfgC1 ledC1 "Alice" = 0 := by
  refine ⟨by decide, by decide, ?_, ?_⟩
  · rw [show season_points cfgC1 ledC1 "Alice" =
      [(0 : ℚ), 0, 0, 0, 0, 0, 0, ((6 : Int) : ℚ) * 1, 0, 0, 0, 0, 0, 0].sum
      from rfl]
    norm_num [List.sum_cons, List.sum_nil]
  · rw [show season_points_claimed cfgC1 ledC1 "Alice" =
      [(0 : ℚ), 0, 0, 0, 0, 0, 0].sum from rfl]
    norm_num [List.sum_cons, List.sum_nil]

/-- C2 (code evaluation at the failing input): the puzzle-number group of
WORDLE_PAT is a plain digit run, so the body with the thousands separator
produces no result token and the whole log line produces no scoring event,
although the line itself is extracted and its timestamp parses; the same
body without the comma matches and scores 4 points. -/
theorem c2_comma_puzzle_rejected :
    wordleSearch "Wordle 1,689 3/6" = none ∧
    extractMessage "12/01/2026, 08:15 - Alice: Wordle 1,689 3/6" =
      some ⟨"12/01/2026", "08:15", "Alice", "Wordle 1,689 3/6"⟩ ∧
    parse_dt "12/01/2026" "08:15" true = Except.ok ⟨⟨2026, 1, 12⟩, ⟨8, 15⟩⟩ ∧
    runPipeline true ["12/01/2026, 08:15 - Alice: Wordle 1,689 3/6"] =
      initState ∧
    wordleSearch "Wordle 1689 3/6" = some (1689, "3/6") ∧
    score_from_result "3/6" = 4 := by
  refine ⟨by decide, by decide, rfl, by decide, by decide, ?_⟩
  rw [show score_from_result "3/6" = ((4 : Int) : ℚ) from rfl]
  norm_num

/-- C3 counterexample: a log line whose time text carries a seconds component
matches neither line pattern, so it is not extracted and yields no scoring
event — refuting that a seconds-bearing line is still extracted and
scored. -/
theorem c3_counterexample :
    extractMessage "12/01/2026, 08:15:30 - Alice: Wordle 1689 3/6" = none ∧
    runPipeline true ["12/01/2026, 08:15:30 - Alice: Wordle 1689 3/6"] =
      initState :=
  ⟨by decide, by decide⟩

/-- C3 as amended: time text is accepted only in hour-colon-minute form
(one or two hour digits, exactly two minute digits); a seconds-bearing time
is rejected by the time parser and a seconds-bearing line matches no line
pattern, while an hour-minute line is extracted and scored normally. -/
theorem c3_time_accepts_hh_mm_only :
    parse_time "08:15" = some ⟨8, 15⟩ ∧
    parse_time "8:05" = some ⟨8, 5⟩ ∧
    parse_time "08:15:30" = none ∧
    extractMessage "12/01/2026, 08:15:30 - Alice: Wordle 1689 3/6" = none ∧
    Ledger.get (runPipeline true
        ["12/01/2026, 08:15 - Alice: Wordle 1689 3/6"]).first_sub
      ("Alice", 1689) = some ⟨⟨⟨2026, 1, 12⟩, ⟨8, 15⟩⟩, "3/6"⟩ := by
  decide

/-- C10: sender names differing only in letter case (after trimming the
surrounding whitespace) are distinct players: each gets its own ledger entry
under its exact name, both appear in the player set, and each accumulates
its own season total, even though their lowercased names coincide. -/
theorem c10_case_sensitive_identity :
    safe_name "  Alice " = "Alice" ∧
    "Alice" ≠ "ALICE" ∧
    pyLower "Alice" = pyLower "ALICE" ∧
    Ledger.get (runPipeline true linesC10).first_sub ("Alice", 100) =
      some ⟨⟨⟨2026, 1, 12⟩, ⟨8, 15⟩⟩, "3/6"⟩ ∧
    Ledger.get (runPipeline true linesC10).first_sub ("ALICE", 100) =
      some ⟨⟨⟨2026, 1, 12⟩, ⟨8, 20⟩⟩, "1/6"⟩ ∧
    "Alice" ∈ (runPipeline true linesC10).all_players ∧
    "ALICE" ∈ (runPipeline true linesC10).all_players ∧
    season_points cfgC10 (runPipeline true linesC10).first_sub "Alice" = 4 ∧
    season_points cfgC10 (runPipeline true linesC10).first_sub "ALICE" = 6 := by
  refine ⟨by decide, by decide, by decide, by decide, by decide, by decide,
    by decide, ?_, ?_⟩
  · rw [show season_points cfgC10 (runPipeline true linesC10).first_sub "Alice" =
      [((4 : Int) : ℚ) * 1, 0, 0, 0, 0, 0, 0].sum from rfl]
    norm_num [List.sum_cons, List.sum_nil]
  · rw [show season_points cfgC10 (runPipeline true linesC10).first_sub "ALICE" =
      [((6 : Int) : ℚ) * 1, 0, 0, 0, 0, 0, 0].sum from rfl]
    norm_num [List.sum_cons, List.sum_nil]

theorem c7_witness :
    ranksBefore 4 "Alice" 2 "bob" ∧
    ranksBefore 3 "Alice" 3 "bob" ∧
    (ranksBefore 4 "Alice" 2 "bob" ↔ ¬ ranksBefore 2 "bob" 4 "Alice") ∧
    (rankKey 3 "BOB" = rankKey 3 "bob" ↔ (3 : ℚ) = 3 ∧ pyLower "BOB" = pyLower "bob") := by
  refine ⟨(c7_ranking_total_order 4 2 "Alice" "bob").2.1 (by norm_num),
    (c7_ranking_total_order 3 3 "Alice" "bob").2.2.1 rfl (by
      rw [show pyLower "Alice" = "alice" from rfl,
        show pyLower "bob" = "bob" from rfl, String.lt_iff_toList_lt]
      decide),
    (c7_ranking_total_order 4 2 "Alice" "bob").2.2.2 (Or.inl (by norm_num)),
    (c7_ranking_total_order 3 3 "BOB" "bob").1⟩

end WordleApp
